import Mathlib

/-!
Verification development for the Cineverse backend
(src/Decthon/backend/main.py): a streaming chat relay and a
two-call movie lookup. The handlers are shallowly embedded as pure
functions; outbound HTTP calls are abstracted as explicit outcome
parameters, and the calls a handler issues are recorded in a trace.
-/

namespace Decthon

/-- Python truthiness of an optional string (as returned by
`os.getenv` or `dict.get`): `None` and the empty string are falsy. -/
def truthyStr : Option String → Bool
  | none => false
  | some s => !(s == "")

/-! ## Streaming chat relay (`generate_stream`, main.py lines 84-110) -/

/-- One streamed chunk from the completion provider, reduced to the
field the relay reads: `chunk.choices[0].delta.content`, which may be
absent (`None`). -/
structure Delta where
  content : Option String
deriving Repr, DecidableEq

/-- One run of the provider stream, as observed by the generator:
`chunks` are the deltas successfully retrieved in order, and `failure`
is `some msg` when the `create` call or the retrieval of the next chunk
raises an exception with message `msg` after those chunks (the
surrounding `try` catches it), `none` when the stream completes
normally. -/
structure ProviderOutcome where
  chunks : List Delta
  failure : Option String
deriving Repr, DecidableEq

/-- The three payload shapes the generator yields: a text fragment
`data: {"text": ...}`, an error payload `data: {"error": ...}`, or the
terminal `data: [DONE]` sentinel. -/
inductive StreamEvent where
  | text (t : String)
  | error (msg : String)
  | done
deriving Repr, DecidableEq

/-- The `for chunk in stream` loop body (main.py lines 100-104): a
chunk whose `delta.content` is truthy (present and non-empty) yields
one text event; falsy chunks are skipped. -/
def relayFragments : List Delta → List StreamEvent
  | [] => []
  | c :: rest =>
      if truthyStr c.content then
        StreamEvent.text (c.content.getD "") :: relayFragments rest
      else
        relayFragments rest

/-- `generate_stream` (main.py lines 84-110). The `message` and
`is_recommendation` arguments select the provider request (system
prompt, model, temperature); the provider response itself is abstracted
by `p`. On normal exhaustion of the stream a single Done sentinel is
yielded; an exception caught by the `try` yields a single error event
after the fragments retrieved so far, and the generator ends. -/
def generate_stream (message : String) (is_recommendation : Bool)
    (p : ProviderOutcome) : List StreamEvent :=
  match p.failure with
  | none => relayFragments p.chunks ++ [StreamEvent.done]
  | some e => relayFragments p.chunks ++ [StreamEvent.error e]

/-! ## `/chat` handler (main.py lines 113-137) -/

/-- `ChatRequest` (main.py lines 77-81). -/
structure ChatRequest where
  message : String
  stream : Bool := true
  is_recommendation : Bool := true
deriving Repr, DecidableEq

/-- Result of the `/chat` handler: either an `HTTPException` raised
before streaming starts, or a streaming response whose body is the
event sequence produced by `generate_stream`. -/
inductive ChatResult where
  | httpError (status : Nat) (detail : String)
  | streamResp (events : List StreamEvent)
deriving Repr, DecidableEq

/-- ASCII characters stripped by Python `str.strip()` with no
argument (restricted to the ASCII range): space, tab, newline,
carriage return, vertical tab, form feed. -/
def pyIsSpace (c : Char) : Bool :=
  c == ' ' || c == '\t' || c == '\n' || c == '\r' ||
    c == Char.ofNat 11 || c == Char.ofNat 12

/-- Models `not request.message.strip()` (main.py line 126): true iff
every character of the message is whitespace (equivalently, stripping
leaves the empty string). -/
def strippedEmpty (s : String) : Bool :=
  s.data.all pyIsSpace

/-- The `/chat` handler (main.py lines 113-137).
`openaiKeyAtRequest` is the value `os.getenv("OPENAI_API_KEY")`
returns at request time (line 120 re-reads the environment on every
request). A falsy key gives a 500 configuration error; a blank message
gives a 400 client error; otherwise a streaming response wrapping
`generate_stream` is returned. -/
def chat (openaiKeyAtRequest : Option String) (request : ChatRequest)
    (p : ProviderOutcome) : ChatResult :=
  if !truthyStr openaiKeyAtRequest then
    ChatResult.httpError 500
      "OpenAI API key not configured. Please add OPENAI_API_KEY to .env file."
  else if strippedEmpty request.message then
    ChatResult.httpError 400 "Message cannot be empty"
  else
    ChatResult.streamResp
      (generate_stream request.message request.is_recommendation p)

/-- Number of provider completion calls a `/chat` result entails: the
generator issues its single `create` call only when the handler
returned a `StreamingResponse` and the body is consumed; raising an
`HTTPException` first means the generator never starts. -/
def chatProviderCalls : ChatResult → Nat
  | ChatResult.httpError _ _ => 0
  | ChatResult.streamResp _ => 1

/-- Whether a `/chat` result is an HTTP-level client error (4xx). -/
def isClientError : ChatResult → Bool
  | ChatResult.httpError s _ => 400 ≤ s && s < 500
  | ChatResult.streamResp _ => false

/-! ## `/search-movie` handler (main.py lines 168-237) -/

/-- `MovieSearchRequest` (main.py lines 151-154). -/
structure MovieSearchRequest where
  title : String
  year : Option Int := none
deriving Repr, DecidableEq

/-- One entry of the TMDB search response `results` array, reduced to
the fields the handler reads. `id` is accessed unconditionally
(`movie["id"]`); the rest go through `movie.get(...)` and so may be
absent. -/
structure TmdbSearchResult where
  id : Int
  title : Option String := none
  release_date : Option String := none
  poster_path : Option String := none
  vote_average : Option ℚ := none
  overview : Option String := none
deriving Repr, DecidableEq

/-- The parsed JSON body of the TMDB search call, reduced to the one
key the handler reads: `search_data.get("results")`. -/
structure TmdbSearchResponse where
  results : Option (List TmdbSearchResult)
deriving Repr, DecidableEq

/-- One entry of the detail response genre array; `genre["name"]` is
accessed unconditionally. -/
structure Genre where
  name : String
deriving Repr, DecidableEq

/-- The parsed JSON body of the TMDB detail call, reduced to
`details.get("genres", [])`. -/
structure TmdbDetails where
  genres : Option (List Genre) := none
deriving Repr, DecidableEq

/-- `TMDB_IMAGE_BASE_URL` (main.py line 41). -/
def TMDB_IMAGE_BASE_URL : String := "https://image.tmdb.org/t/p/w500"

/-- The normalized movie payload returned under the `movie` key
(`MovieData`, main.py lines 157-165). The float `rating` is modelled
as a rational. -/
structure MovieRecord where
  id : Int
  title : String
  year : String
  poster_url : Option String
  rating : ℚ
  overview : String
  genres : List String
deriving Repr, DecidableEq

/-- Result of the `/search-movie` handler: a raised `HTTPException`,
the not-found payload `{"found": False, "message": ...}`, or the found
payload `{"found": True, "movie": ...}`. -/
inductive LookupResult where
  | httpError (status : Nat) (detail : String)
  | notFound (message : String)
  | found (movie : MovieRecord)
deriving Repr, DecidableEq

/-- The outbound HTTP calls one `/search-movie` invocation issued:
how many search calls, and the ids targeted by detail calls, in
order. -/
structure LookupTrace where
  searchCalls : Nat
  detailCalls : List Int
deriving Repr, DecidableEq

/-- The ASCII single-quote character. -/
def squote : String := (Char.ofNat 39).toString

/-- The f-string of main.py line 198: `Movie <q><title><q> not found`
where `<q>` is a single quote. -/
def notFoundMessage (title : String) : String :=
  "Movie " ++ squote ++ title ++ squote ++ " not found"

/-- Models Python `round(x, 1)` (main.py line 231), transported from
IEEE floats to rationals: scale by 10, round to the nearest integer,
scale back. Ties are rounded up here, where CPython rounds the binary
float to even; the development only evaluates this function at points
where the two agree. -/
def pyRound1 (q : ℚ) : ℚ := (round (q * 10) : ℤ) / 10

/-- `not search_data.get("results")` (main.py line 197): the key is
absent, `None`, or an empty array. -/
def falsyResults : Option (List TmdbSearchResult) → Bool
  | none => true
  | some l => l.isEmpty

/-- The `/search-movie` handler (main.py lines 168-237).
`TMDB_API_KEY` is the module-level value captured from the environment
at process start (line 39). `searchOutcome` abstracts the search HTTP
round trip and its `.json()` parse; `detailOutcome id` abstracts the
detail round trip for a given movie id; an `Except.error` models an
exception caught by the surrounding `try` and converted to a 500.
The second component records the outbound calls issued. -/
def search_movie (TMDB_API_KEY : Option String)
    (request : MovieSearchRequest)
    (searchOutcome : Except String TmdbSearchResponse)
    (detailOutcome : Int → Except String TmdbDetails) :
    LookupResult × LookupTrace :=
  if !truthyStr TMDB_API_KEY then
    (LookupResult.httpError 500
      "TMDB API key not configured. Please add TMDB_API_KEY to .env file.",
     ⟨0, []⟩)
  else
    match searchOutcome with
    | Except.error e =>
        (LookupResult.httpError 500 ("Error fetching movie data: " ++ e),
         ⟨1, []⟩)
    | Except.ok search_data =>
        match search_data.results with
        | none =>
            (LookupResult.notFound (notFoundMessage request.title), ⟨1, []⟩)
        | some results =>
            match results with
            | [] =>
                (LookupResult.notFound (notFoundMessage request.title),
                 ⟨1, []⟩)
            | movie :: _ =>
                let movie_id := movie.id
                match detailOutcome movie_id with
                | Except.error e =>
                    (LookupResult.httpError 500
                      ("Error fetching movie data: " ++ e),
                     ⟨1, [movie_id]⟩)
                | Except.ok details =>
                    let poster_url :=
                      if truthyStr movie.poster_path then
                        some (TMDB_IMAGE_BASE_URL ++
                          movie.poster_path.getD "")
                      else none
                    let year :=
                      if truthyStr movie.release_date then
                        (movie.release_date.getD "").take 4
                      else ""
                    let genres := (details.genres.getD []).map Genre.name
                    (LookupResult.found
                      { id := movie_id
                        title := movie.title.getD request.title
                        year := year
                        poster_url := poster_url
                        rating := pyRound1 (movie.vote_average.getD 0)
                        overview := movie.overview.getD ""
                        genres := genres.take 3 },
                     ⟨1, [movie_id]⟩)

/-! ## Environment-read timing (main.py lines 36-39, 120, 174) -/

/-- The two credential variables of the process environment. -/
structure Env where
  OPENAI_API_KEY : Option String
  TMDB_API_KEY : Option String
deriving Repr, DecidableEq

/-- The `/chat` handler situated in the process: `startupEnv` is the
environment when the module loaded (used at line 36 to build the
OpenAI client, which is abstracted into `p`); the guard at line 120
calls `os.getenv` afresh, so it reads `requestEnv`. -/
def chatHandler (startupEnv requestEnv : Env) (request : ChatRequest)
    (p : ProviderOutcome) : ChatResult :=
  chat requestEnv.OPENAI_API_KEY request p

/-- The `/search-movie` handler situated in the process: the guard at
line 174 reads the module-level `TMDB_API_KEY` captured from
`startupEnv` at line 39; the request-time environment is not
consulted. -/
def searchMovieHandler (startupEnv requestEnv : Env)
    (request : MovieSearchRequest)
    (searchOutcome : Except String TmdbSearchResponse)
    (detailOutcome : Int → Except String TmdbDetails) :
    LookupResult × LookupTrace :=
  search_movie startupEnv.TMDB_API_KEY request searchOutcome detailOutcome

/-! ## Spec-side observation functions -/

/-- Whether an event is a text fragment with non-empty payload. -/
def isNonEmptyText : StreamEvent → Bool
  | StreamEvent.text t => !(t == "")
  | _ => false

/-- Whether an event is the Done sentinel. -/
def isDoneEvent : StreamEvent → Bool
  | StreamEvent.done => true
  | _ => false

/-- Whether an event is an error event. -/
def isErrorEvent : StreamEvent → Bool
  | StreamEvent.error _ => true
  | _ => false

/-- Number of Done sentinels in an event sequence. -/
def countDone (es : List StreamEvent) : Nat := es.countP isDoneEvent

/-- Number of error events in an event sequence. -/
def countErrors (es : List StreamEvent) : Nat := es.countP isErrorEvent

/-- The terminal event the spec prescribes for a given provider
outcome: Done on normal completion, a single error event carrying the
failure message otherwise. -/
def expectedTerminal : Option String → StreamEvent
  | none => StreamEvent.done
  | some m => StreamEvent.error m

/-- The text payloads of an event sequence, in order. -/
def textPayloads : List StreamEvent → List String
  | [] => []
  | StreamEvent.text t :: rest => t :: textPayloads rest
  | StreamEvent.error _ :: rest => textPayloads rest
  | StreamEvent.done :: rest => textPayloads rest

/-- Spec-side description of which fragments should surface: for every
incremental fragment that carries non-empty text, exactly one entry,
in provider order; fragments with empty or missing text are
suppressed. -/
def specNonEmptyFragments (ds : List Delta) : List String :=
  ds.filterMap fun d =>
    match d.content with
    | some t => if t = "" then none else some t
    | none => none

/-! ## Helper lemmas about the relay loop -/

theorem relayFragments_all_nonEmptyText (ds : List Delta) :
    (relayFragments ds).all isNonEmptyText = true := by
  induction ds with
  | nil => rfl
  | cons c rest ih =>
      simp only [relayFragments]
      split
      · rename_i h
        cases hc : c.content with
        | none => rw [hc] at h; simp [truthyStr] at h
        | some t =>
            rw [hc] at h
            simp only [truthyStr, Bool.not_eq_true'] at h
            simp [List.all_cons, ih, isNonEmptyText, hc, h]
      · exact ih

theorem relayFragments_countDone (ds : List Delta) :
    countDone (relayFragments ds) = 0 := by
  induction ds with
  | nil => rfl
  | cons c rest ih =>
      simp only [relayFragments]
      split
      · simpa [countDone, List.countP_cons, isDoneEvent] using ih
      · exact ih

theorem relayFragments_countErrors (ds : List Delta) :
    countErrors (relayFragments ds) = 0 := by
  induction ds with
  | nil => rfl
  | cons c rest ih =>
      simp only [relayFragments]
      split
      · simpa [countErrors, List.countP_cons, isErrorEvent] using ih
      · exact ih

theorem textPayloads_relayFragments (ds : List Delta) :
    textPayloads (relayFragments ds) = specNonEmptyFragments ds := by
  induction ds with
  | nil => rfl
  | cons c rest ih =>
      simp only [relayFragments, specNonEmptyFragments, List.filterMap_cons]
      cases hc : c.content with
      | none => simpa [truthyStr, specNonEmptyFragments] using ih
      | some t =>
          by_cases ht : t = ""
          · simpa [truthyStr, ht, specNonEmptyFragments] using ih
          · simpa [truthyStr, ht, textPayloads, specNonEmptyFragments] using ih

theorem textPayloads_append (xs ys : List StreamEvent) :
    textPayloads (xs ++ ys) = textPayloads xs ++ textPayloads ys := by
  induction xs with
  | nil => rfl
  | cons e rest ih => cases e <;> simp [textPayloads, ih]

/-! ## Claims about the streaming relay -/

/-- C1: for every run of the chat streaming generator on a non-empty
message, the event sequence ends with exactly one terminal — the Done
sentinel when the provider stream completes normally, a single error
event when the provider call or a fragment retrieval raises — never
both and never neither; every earlier event is a non-empty text
fragment, so no fragment or Done follows an error. -/
theorem generate_stream_single_terminal (message : String)
    (is_rec : Bool) (p : ProviderOutcome) (hmsg : message ≠ "") :
    (generate_stream message is_rec p).dropLast.all isNonEmptyText = true ∧
    (generate_stream message is_rec p).getLast? =
      some (expectedTerminal p.failure) ∧
    countDone (generate_stream message is_rec p) +
      countErrors (generate_stream message is_rec p) = 1 := by
  cases hf : p.failure with
  | none =>
      refine ⟨?_, ?_, ?_⟩
      · rw [generate_stream, hf, List.dropLast_concat]
        exact relayFragments_all_nonEmptyText p.chunks
      · rw [generate_stream, hf, List.getLast?_concat]
        rfl
      · rw [generate_stream, hf]
        have hd := relayFragments_countDone p.chunks
        have he := relayFragments_countErrors p.chunks
        simp only [countDone, countErrors, List.countP_append] at *
        simp [hd, he, List.countP_cons, isDoneEvent, isErrorEvent]
  | some m =>
      refine ⟨?_, ?_, ?_⟩
      · rw [generate_stream, hf, List.dropLast_concat]
        exact relayFragments_all_nonEmptyText p.chunks
      · rw [generate_stream, hf, List.getLast?_concat]
        rfl
      · rw [generate_stream, hf]
        have hd := relayFragments_countDone p.chunks
        have he := relayFragments_countErrors p.chunks
        simp only [countDone, countErrors, List.countP_append] at *
        simp [hd, he, List.countP_cons, isDoneEvent, isErrorEvent]

/-- Witness for C1 at a concrete run: one fragment, normal
completion. -/
theorem generate_stream_single_terminal_witness :
    (generate_stream "hello" true ⟨[⟨some "a"⟩], none⟩).dropLast.all
        isNonEmptyText = true ∧
    (generate_stream "hello" true ⟨[⟨some "a"⟩], none⟩).getLast? =
      some (expectedTerminal (ProviderOutcome.mk [⟨some "a"⟩] none).failure) ∧
    countDone (generate_stream "hello" true ⟨[⟨some "a"⟩], none⟩) +
      countErrors (generate_stream "hello" true ⟨[⟨some "a"⟩], none⟩) = 1 :=
  generate_stream_single_terminal "hello" true ⟨[⟨some "a"⟩], none⟩
    (by decide)

/-- C2: the relay emits text events in exactly the provider order,
one per fragment with non-empty text, and suppresses empty or missing
fragments; an empty-text event is never emitted. -/
theorem generate_stream_order_and_suppression (message : String)
    (is_rec : Bool) (p : ProviderOutcome) :
    textPayloads (generate_stream message is_rec p) =
      specNonEmptyFragments p.chunks ∧
    (generate_stream message is_rec p).all
      (fun e => !(e == StreamEvent.text "")) = true := by
  constructor
  · cases hf : p.failure with
    | none =>
        rw [generate_stream, hf, textPayloads_append,
          textPayloads_relayFragments]
        simp [textPayloads]
    | some m =>
        rw [generate_stream, hf, textPayloads_append,
          textPayloads_relayFragments]
        simp [textPayloads]
  · have hall := relayFragments_all_nonEmptyText p.chunks
    cases hf : p.failure with
    | none =>
        rw [generate_stream, hf, List.all_append, Bool.and_eq_true]
        constructor
        · simp only [List.all_eq_true] at hall ⊢
          intro e he
          have := hall e he
          cases e <;> simp_all [isNonEmptyText]
        · simp
    | some m =>
        rw [generate_stream, hf, List.all_append, Bool.and_eq_true]
        constructor
        · simp only [List.all_eq_true] at hall ⊢
          intro e he
          have := hall e he
          cases e <;> simp_all [isNonEmptyText]
        · simp

/-! ## Claims about the `/chat` handler -/

/-- C9: two chat requests identical except for the `stream` field get
identical results; moreover the handler either streams (issuing its
one provider call via `generate_stream`) or rejected the request with
no provider call — the flag never selects a non-streaming mode. -/
theorem chat_ignores_stream_flag (key : Option String) (msg : String)
    (s1 s2 rec : Bool) (p : ProviderOutcome) :
    chat key ⟨msg, s1, rec⟩ p = chat key ⟨msg, s2, rec⟩ p ∧
    (chat key ⟨msg, s1, rec⟩ p =
        ChatResult.streamResp (generate_stream msg rec p) ∨
      chatProviderCalls (chat key ⟨msg, s1, rec⟩ p) = 0) := by
  refine ⟨rfl, ?_⟩
  rw [chat]
  split
  · right; rfl
  · split
    · right; rfl
    · left; rfl

/-- C5 counterexample: the empty message is blank, yet when the
model-provider credential is absent the handler rejects it with the
500 configuration error — not a 4xx client error — because the
credential check at line 120 runs before the blank-message check at
line 126. -/
theorem chat_blank_message_counterexample :
    strippedEmpty "" = true ∧
    chat none ⟨"", true, true⟩ ⟨[], none⟩ =
      ChatResult.httpError 500
        "OpenAI API key not configured. Please add OPENAI_API_KEY to .env file." ∧
    isClientError (chat none ⟨"", true, true⟩ ⟨[], none⟩) = false := by
  exact ⟨rfl, rfl, rfl⟩

/-- C5 as amended: every blank (empty or whitespace-only) chat message
is rejected before any provider call; the rejection is the 400 client
error when the model-provider credential is configured, and the 500
configuration error when it is not. -/
theorem chat_blank_message_rejected (key : Option String)
    (req : ChatRequest) (p : ProviderOutcome)
    (hblank : strippedEmpty req.message = true) :
    chatProviderCalls (chat key req p) = 0 ∧
    ((truthyStr key = true ∧
        chat key req p =
          ChatResult.httpError 400 "Message cannot be empty" ∧
        isClientError (chat key req p) = true) ∨
      (truthyStr key = false ∧
        chat key req p =
          ChatResult.httpError 500
            "OpenAI API key not configured. Please add OPENAI_API_KEY to .env file.")) := by
  by_cases hk : truthyStr key = true
  · refine ⟨?_, Or.inl ⟨hk, ?_, ?_⟩⟩ <;>
      simp [chat, hk, hblank, chatProviderCalls, isClientError]
  · have hk2 : truthyStr key = false := by simpa using hk
    refine ⟨?_, Or.inr ⟨hk2, ?_⟩⟩ <;>
      simp [chat, hk2, chatProviderCalls]

/-- Witness for amended C5 at a whitespace-only message with the
credential configured. -/
theorem chat_blank_message_rejected_witness :
    chatProviderCalls (chat (some "k") ⟨" ", true, true⟩ ⟨[], none⟩) = 0 ∧
    ((truthyStr (some "k") = true ∧
        chat (some "k") ⟨" ", true, true⟩ ⟨[], none⟩ =
          ChatResult.httpError 400 "Message cannot be empty" ∧
        isClientError (chat (some "k") ⟨" ", true, true⟩ ⟨[], none⟩) =
          true) ∨
      (truthyStr (some "k") = false ∧
        chat (some "k") ⟨" ", true, true⟩ ⟨[], none⟩ =
          ChatResult.httpError 500
            "OpenAI API key not configured. Please add OPENAI_API_KEY to .env file.")) :=
  chat_blank_message_rejected (some "k") ⟨" ", true, true⟩ ⟨[], none⟩
    (by decide)

/-- C8 counterexample: two runs with the same startup environment but
different request-time environments give different `/chat` results, so
the model-provider credential consulted by the `/chat` guard is the
request-time environment read of line 120, not a value read once at
process start. -/
theorem chat_key_reread_counterexample :
    chatHandler ⟨some "k", none⟩ ⟨some "k", none⟩ ⟨"hello", true, true⟩
        ⟨[], none⟩ ≠
      chatHandler ⟨some "k", none⟩ ⟨none, none⟩ ⟨"hello", true, true⟩
        ⟨[], none⟩ := by
  decide

/-- C8 as amended: the movie-database key is captured once at process
start — `/search-movie` depends only on the startup environment — and
its absence degrades `/search-movie` to a 500 configuration error with
no outbound call; the model-provider key is re-read from the
environment on each `/chat` request, and its absence at request time
degrades `/chat` to a 500 configuration error with the generator never
started. -/
theorem missing_credentials_config_error
    (startupEnv requestEnv requestEnv2 : Env) (creq : ChatRequest)
    (p : ProviderOutcome) (mreq : MovieSearchRequest)
    (so : Except String TmdbSearchResponse)
    (det : Int → Except String TmdbDetails)
    (hopenai : truthyStr requestEnv.OPENAI_API_KEY = false)
    (htmdb : truthyStr startupEnv.TMDB_API_KEY = false) :
    chatHandler startupEnv requestEnv creq p =
      ChatResult.httpError 500
        "OpenAI API key not configured. Please add OPENAI_API_KEY to .env file." ∧
    chatProviderCalls (chatHandler startupEnv requestEnv creq p) = 0 ∧
    (searchMovieHandler startupEnv requestEnv mreq so det).1 =
      LookupResult.httpError 500
        "TMDB API key not configured. Please add TMDB_API_KEY to .env file." ∧
    (searchMovieHandler startupEnv requestEnv mreq so det).2 =
      LookupTrace.mk 0 [] ∧
    searchMovieHandler startupEnv requestEnv mreq so det =
      searchMovieHandler startupEnv requestEnv2 mreq so det := by
  refine ⟨?_, ?_, ?_, ?_, rfl⟩ <;>
    simp [chatHandler, searchMovieHandler, chat, search_movie, hopenai,
      htmdb, chatProviderCalls]

/-- Witness for amended C8 with both credentials absent. -/
theorem missing_credentials_config_error_witness :
    chatHandler ⟨none, none⟩ ⟨none, none⟩ ⟨"hi", true, true⟩ ⟨[], none⟩ =
      ChatResult.httpError 500
        "OpenAI API key not configured. Please add OPENAI_API_KEY to .env file." ∧
    chatProviderCalls
        (chatHandler ⟨none, none⟩ ⟨none, none⟩ ⟨"hi", true, true⟩
          ⟨[], none⟩) = 0 ∧
    (searchMovieHandler ⟨none, none⟩ ⟨none, none⟩ ⟨"Heat", none⟩
        (Except.ok ⟨none⟩) (fun _ => Except.ok ⟨none⟩)).1 =
      LookupResult.httpError 500
        "TMDB API key not configured. Please add TMDB_API_KEY to .env file." ∧
    (searchMovieHandler ⟨none, none⟩ ⟨none, none⟩ ⟨"Heat", none⟩
        (Except.ok ⟨none⟩) (fun _ => Except.ok ⟨none⟩)).2 =
      LookupTrace.mk 0 [] ∧
    searchMovieHandler ⟨none, none⟩ ⟨none, none⟩ ⟨"Heat", none⟩
        (Except.ok ⟨none⟩) (fun _ => Except.ok ⟨none⟩) =
      searchMovieHandler ⟨none, none⟩ ⟨some "x", some "y"⟩ ⟨"Heat", none⟩
        (Except.ok ⟨none⟩) (fun _ => Except.ok ⟨none⟩) :=
  missing_credentials_config_error ⟨none, none⟩ ⟨none, none⟩
    ⟨some "x", some "y"⟩ ⟨"hi", true, true⟩ ⟨[], none⟩ ⟨"Heat", none⟩
    (Except.ok ⟨none⟩) (fun _ => Except.ok ⟨none⟩) (by decide) (by decide)

/-! ## Claims about the `/search-movie` handler -/

/-- Projects the movie record out of a found lookup result. -/
def foundMovie : LookupResult → Option MovieRecord
  | LookupResult.found m => some m
  | LookupResult.notFound _ => none
  | LookupResult.httpError _ _ => none

/-- Shared helper: the fully evaluated result of `/search-movie` on
the happy path — truthy key, at least one search result, detail call
succeeding. -/
theorem search_movie_found (key : Option String)
    (req : MovieSearchRequest) (movie : TmdbSearchResult)
    (rest : List TmdbSearchResult)
    (det : Int → Except String TmdbDetails) (details : TmdbDetails)
    (hkey : truthyStr key = true)
    (hdet : det movie.id = Except.ok details) :
    search_movie key req (Except.ok ⟨some (movie :: rest)⟩) det =
      (LookupResult.found
        { id := movie.id
          title := movie.title.getD req.title
          year :=
            if truthyStr movie.release_date then
              (movie.release_date.getD "").take 4
            else ""
          poster_url :=
            if truthyStr movie.poster_path then
              some (TMDB_IMAGE_BASE_URL ++ movie.poster_path.getD "")
            else none
          rating := pyRound1 (movie.vote_average.getD 0)
          overview := movie.overview.getD ""
          genres := ((details.genres.getD []).map Genre.name).take 3 },
       ⟨1, [movie.id]⟩) := by
  simp [search_movie, hkey, hdet]

/-- C3: with a configured key, a search response with zero results
yields exactly the not-found payload naming the requested title, with
no detail call; and every not-found result, wherever produced, has
that exact payload, an empty detail-call list, and came from a parsed
search response whose results were absent or empty. -/
theorem search_movie_not_found_exact (key : Option String)
    (req : MovieSearchRequest) (resp : TmdbSearchResponse)
    (det : Int → Except String TmdbDetails) (key2 : Option String)
    (req2 : MovieSearchRequest) (so2 : Except String TmdbSearchResponse)
    (det2 : Int → Except String TmdbDetails) (msg : String)
    (tr : LookupTrace) (hkey : truthyStr key = true)
    (hres : falsyResults resp.results = true)
    (hnf : search_movie key2 req2 so2 det2 =
      (LookupResult.notFound msg, tr)) :
    search_movie key req (Except.ok resp) det =
      (LookupResult.notFound (notFoundMessage req.title), ⟨1, []⟩) ∧
    msg = notFoundMessage req2.title ∧ tr = ⟨1, []⟩ ∧
    ∃ resp2, so2 = Except.ok resp2 ∧ falsyResults resp2.results = true := by
  constructor
  · cases hr : resp.results with
    | none => simp [search_movie, hkey, hr]
    | some l =>
        rw [hr] at hres
        cases l with
        | nil => simp [search_movie, hkey, hr]
        | cons a t => simp [falsyResults] at hres
  · rw [search_movie.eq_def] at hnf
    by_cases hk2 : truthyStr key2 = true
    · rw [hk2] at hnf
      simp only [Bool.not_true, Bool.false_eq_true, if_false] at hnf
      cases so2 with
      | error e => simp at hnf
      | ok resp2 =>
          cases hr2 : resp2.results with
          | none =>
              simp only [hr2, Prod.mk.injEq,
                LookupResult.notFound.injEq] at hnf
              exact ⟨hnf.1.symm, hnf.2.symm, resp2, rfl,
                by simp [falsyResults, hr2]⟩
          | some l2 =>
              cases l2 with
              | nil =>
                  simp only [hr2, Prod.mk.injEq,
                    LookupResult.notFound.injEq] at hnf
                  exact ⟨hnf.1.symm, hnf.2.symm, resp2, rfl,
                    by simp [falsyResults, hr2]⟩
              | cons movie2 rest2 =>
                  cases hd2 : det2 movie2.id with
                  | error e => simp [hr2, hd2] at hnf
                  | ok d2 => simp [hr2, hd2] at hnf
    · have hk2f : truthyStr key2 = false := by simpa using hk2
      rw [hk2f] at hnf
      simp at hnf

/-- Witness for C3: a concrete empty-results lookup, with the
universally quantified not-found run instantiated at another concrete
empty-results lookup. -/
theorem search_movie_not_found_exact_witness :
    search_movie (some "k") ⟨"Heat", none⟩ (Except.ok ⟨some []⟩)
        (fun _ => Except.ok ⟨none⟩) =
      (LookupResult.notFound (notFoundMessage "Heat"), ⟨1, []⟩) ∧
    notFoundMessage "Alien" = notFoundMessage "Alien" ∧
    LookupTrace.mk 1 [] = LookupTrace.mk 1 [] ∧
    ∃ resp2, (Except.ok ⟨none⟩ : Except String TmdbSearchResponse) =
        Except.ok resp2 ∧ falsyResults resp2.results = true :=
  search_movie_not_found_exact (some "k") ⟨"Heat", none⟩ ⟨some []⟩
    (fun _ => Except.ok ⟨none⟩) (some "k") ⟨"Alien", none⟩
    (Except.ok ⟨none⟩) (fun _ => Except.ok ⟨none⟩)
    (notFoundMessage "Alien") ⟨1, []⟩ (by decide) (by decide) rfl

/-- C4: with a configured key, whenever the search response carries
one or more results, the handler issues exactly one search call and
exactly one detail call, targeting the first search result id,
regardless of the remaining results and of the requested year. -/
theorem search_movie_first_result_detail (key : Option String)
    (req : MovieSearchRequest) (movie : TmdbSearchResult)
    (rest : List TmdbSearchResult)
    (det : Int → Except String TmdbDetails)
    (hkey : truthyStr key = true) :
    (search_movie key req (Except.ok ⟨some (movie :: rest)⟩) det).2 =
      LookupTrace.mk 1 [movie.id] := by
  cases hd : det movie.id with
  | error e => simp [search_movie, hkey, hd]
  | ok details => simp [search_movie, hkey, hd]

/-- Witness for C4: two search results, a supplied year not matching
the first hit — the single detail call still targets the first id. -/
theorem search_movie_first_result_detail_witness :
    (search_movie (some "k") ⟨"Heat", some 1995⟩
        (Except.ok ⟨some [⟨7, none, some "1986-02-14", none, none, none⟩,
          ⟨8, none, some "1995-12-15", none, none, none⟩]⟩)
        (fun _ => Except.ok ⟨none⟩)).2 =
      LookupTrace.mk 1
        [(⟨7, none, some "1986-02-14", none, none, none⟩ :
            TmdbSearchResult).id] :=
  search_movie_first_result_detail (some "k") ⟨"Heat", some 1995⟩
    ⟨7, none, some "1986-02-14", none, none, none⟩
    [⟨8, none, some "1995-12-15", none, none, none⟩]
    (fun _ => Except.ok ⟨none⟩) (by decide)

/-- Modelled from the spec as amended for C6: the year is empty when
the release date is absent or empty, and otherwise the prefix of the
release-date string of length at most 4. -/
def yearFromReleaseDateSpec : Option String → String
  | none => ""
  | some d => if d = "" then "" else d.take 4

/-- C6 counterexample: a first search result whose release date is the
two-character string formed of two digit-nine characters produces a
found record whose year equals that string — neither a 4-character
prefix nor empty — so the year field is not always 4 characters or
empty. -/
theorem search_movie_year_counterexample :
    (search_movie (some "k") ⟨"X", none⟩
        (Except.ok ⟨some [⟨7, none, some "99", none, none, none⟩]⟩)
        (fun _ => Except.ok ⟨none⟩)).1 =
      LookupResult.found ⟨7, "X", "99", none, 0, "", []⟩ ∧
    ¬(("99" : String).length = 4 ∨ ("99" : String) = "") := by
  constructor
  · rw [search_movie_found (some "k") ⟨"X", none⟩
      ⟨7, none, some "99", none, none, none⟩ []
      (fun _ => Except.ok ⟨none⟩) ⟨none⟩ (by decide) rfl]
    simp [truthyStr, pyRound1, TMDB_IMAGE_BASE_URL]
    decide
  · decide

/-- C6 as amended: the year of a found record is the prefix of length
at most 4 of the release-date string when one is present and
non-empty, and the empty string otherwise; its length is the minimum
of 4 and the release-date length, so whenever the release date has at
least 4 characters the year is exactly its 4-character prefix. -/
theorem search_movie_year_prefix (key : Option String)
    (req : MovieSearchRequest) (movie : TmdbSearchResult)
    (rest : List TmdbSearchResult)
    (det : Int → Except String TmdbDetails) (details : TmdbDetails)
    (hkey : truthyStr key = true)
    (hdet : det movie.id = Except.ok details) :
    (foundMovie (search_movie key req
        (Except.ok ⟨some (movie :: rest)⟩) det).1).map MovieRecord.year =
      some (yearFromReleaseDateSpec movie.release_date) ∧
    (yearFromReleaseDateSpec movie.release_date).length =
      min 4 (movie.release_date.getD "").length := by
  constructor
  · rw [search_movie_found key req movie rest det details hkey hdet]
    simp only [foundMovie, Option.map_some]
    cases hr : movie.release_date with
    | none => simp [truthyStr, yearFromReleaseDateSpec]
    | some d =>
        by_cases hd : d = "" <;>
          simp [truthyStr, yearFromReleaseDateSpec, hd]
  · cases hr : movie.release_date with
    | none => simp [yearFromReleaseDateSpec]
    | some d =>
        by_cases hd : d = ""
        · simp [yearFromReleaseDateSpec, hd]
        · simp only [yearFromReleaseDateSpec, if_neg hd, Option.getD_some]
          rw [String.take_eq]
          exact List.length_take 4 d.1

/-- Witness for amended C6 at a well-formed release date. -/
theorem search_movie_year_prefix_witness :
    (foundMovie (search_movie (some "k") ⟨"X", none⟩
        (Except.ok ⟨some [⟨7, none, some "1999-07-14", none, none,
          none⟩]⟩)
        (fun _ => Except.ok ⟨none⟩)).1).map MovieRecord.year =
      some (yearFromReleaseDateSpec
        (⟨7, none, some "1999-07-14", none, none, none⟩ :
          TmdbSearchResult).release_date) ∧
    (yearFromReleaseDateSpec
        (⟨7, none, some "1999-07-14", none, none, none⟩ :
          TmdbSearchResult).release_date).length =
      min 4 ((⟨7, none, some "1999-07-14", none, none, none⟩ :
          TmdbSearchResult).release_date.getD "").length :=
  search_movie_year_prefix (some "k") ⟨"X", none⟩
    ⟨7, none, some "1999-07-14", none, none, none⟩ []
    (fun _ => Except.ok ⟨none⟩) ⟨none⟩ (by decide) rfl

/-- C7: the genres of a found record are the detail response genre
names truncated to the first 3 in order; the list never exceeds
length 3, and when the full name list already has at most 3 entries it
passes through unchanged. -/
theorem search_movie_genres_truncated (key : Option String)
    (req : MovieSearchRequest) (movie : TmdbSearchResult)
    (rest : List TmdbSearchResult)
    (det : Int → Except String TmdbDetails) (details : TmdbDetails)
    (hkey : truthyStr key = true)
    (hdet : det movie.id = Except.ok details) :
    (foundMovie (search_movie key req
        (Except.ok ⟨some (movie :: rest)⟩) det).1).map
        MovieRecord.genres =
      some (((details.genres.getD []).map Genre.name).take 3) ∧
    (((details.genres.getD []).map Genre.name).take 3).length ≤ 3 ∧
    ((details.genres.getD []).map Genre.name).take 3 =
      (if ((details.genres.getD []).map Genre.name).length ≤ 3 then
        (details.genres.getD []).map Genre.name
      else ((details.genres.getD []).map Genre.name).take 3) := by
  refine ⟨?_, ?_, ?_⟩
  · rw [search_movie_found key req movie rest det details hkey hdet]
    simp [foundMovie]
  · rw [List.length_take]
    exact min_le_left 3 _
  · split
    · rename_i hle
      exact List.take_of_length_le hle
    · rfl

/-- Witness for C7 at a 4-genre detail response. -/
theorem search_movie_genres_truncated_witness :
    (foundMovie (search_movie (some "k") ⟨"X", none⟩
        (Except.ok ⟨some [⟨7, none, none, none, none, none⟩]⟩)
        (fun _ => Except.ok ⟨some [⟨"Action"⟩, ⟨"Drama"⟩, ⟨"Crime"⟩,
          ⟨"Thriller"⟩]⟩)).1).map MovieRecord.genres =
      some ((((⟨some [⟨"Action"⟩, ⟨"Drama"⟩, ⟨"Crime"⟩, ⟨"Thriller"⟩]⟩ :
          TmdbDetails).genres.getD []).map Genre.name).take 3) ∧
    ((((⟨some [⟨"Action"⟩, ⟨"Drama"⟩, ⟨"Crime"⟩, ⟨"Thriller"⟩]⟩ :
        TmdbDetails).genres.getD []).map Genre.name).take 3).length ≤
      3 ∧
    (((⟨some [⟨"Action"⟩, ⟨"Drama"⟩, ⟨"Crime"⟩, ⟨"Thriller"⟩]⟩ :
        TmdbDetails).genres.getD []).map Genre.name).take 3 =
      (if (((⟨some [⟨"Action"⟩, ⟨"Drama"⟩, ⟨"Crime"⟩, ⟨"Thriller"⟩]⟩ :
          TmdbDetails).genres.getD []).map Genre.name).length ≤ 3 then
        ((⟨some [⟨"Action"⟩, ⟨"Drama"⟩, ⟨"Crime"⟩, ⟨"Thriller"⟩]⟩ :
          TmdbDetails).genres.getD []).map Genre.name
      else (((⟨some [⟨"Action"⟩, ⟨"Drama"⟩, ⟨"Crime"⟩, ⟨"Thriller"⟩]⟩ :
          TmdbDetails).genres.getD []).map Genre.name).take 3) :=
  search_movie_genres_truncated (some "k") ⟨"X", none⟩
    ⟨7, none, none, none, none, none⟩ []
    (fun _ => Except.ok ⟨some [⟨"Action"⟩, ⟨"Drama"⟩, ⟨"Crime"⟩,
      ⟨"Thriller"⟩]⟩)
    ⟨some [⟨"Action"⟩, ⟨"Drama"⟩, ⟨"Crime"⟩, ⟨"Thriller"⟩]⟩ (by decide)
    rfl

/-- C10: a first search result lacking the optional title,
vote-average and overview fields still yields a found record, with the
requested title, rating 0, and empty overview substituted. -/
theorem search_movie_missing_field_defaults (key : Option String)
    (req : MovieSearchRequest) (mid : Int) (rd pp : Option String)
    (rest : List TmdbSearchResult)
    (det : Int → Except String TmdbDetails) (details : TmdbDetails)
    (hkey : truthyStr key = true)
    (hdet : det mid = Except.ok details) :
    (foundMovie (search_movie key req
        (Except.ok ⟨some (⟨mid, none, rd, pp, none, none⟩ :: rest)⟩)
        det).1).map (fun m => (m.title, m.rating, m.overview)) =
      some (req.title, 0, "") := by
  rw [search_movie_found key req ⟨mid, none, rd, pp, none, none⟩ rest
    det details hkey hdet]
  simp [foundMovie, pyRound1]

/-- Witness for C10 at a result carrying only the id. -/
theorem search_movie_missing_field_defaults_witness :
    (foundMovie (search_movie (some "k") ⟨"Heat", none⟩
        (Except.ok ⟨some [⟨7, none, none, none, none, none⟩]⟩)
        (fun _ => Except.ok ⟨none⟩)).1).map
        (fun m => (m.title, m.rating, m.overview)) =
      some ((⟨"Heat", none⟩ : MovieSearchRequest).title, 0, "") :=
  search_movie_missing_field_defaults (some "k") ⟨"Heat", none⟩ 7 none
    none [] (fun _ => Except.ok ⟨none⟩) ⟨none⟩ (by decide) rfl

end Decthon
